import Mathlib

/-!
Verification of the vocabulary-resolution core of the HocTiengTrungPJ
repository.

The development shallowly embeds the two Python modules that contain the
resolution logic:

- home/ai_helper.py: the class VocabularyAIHelper with the orchestrating
  method get_vocabulary_info, the response cleaner _parse_ai_response and
  the deterministic fallback _use_google_fallback, together with the
  GoogleTranslator wrapper and the result dataclasses;
- translator/ai_engine.py: the class ChineseAIEngine with the tool-call
  loop translate and the persistence callback save_vocabulary.

Python strings are modelled as lists of characters.  External effects are
passed in explicitly: the generative provider is an oracle giving the
reply of each successive request, the deterministic translation provider
is a function from a request to an outcome, and the vocabulary file is a
function from written content to an optional failure.  Each embedded
operation returns, besides the Python return value, the trace of external
calls it performed, so that claims about the number of provider
round-trips and about callback executions can be stated.
-/

namespace HTT

/-- Python strings are modelled as lists of characters. -/
abbrev Str := List Char

/-- The backtick character, written via its code point. -/
def btick : Char := Char.ofNat 96

/-- Whitespace as stripped by the modelled subset of Python: space, tab,
line feed and carriage return.  This is exactly the whitespace set of the
Python json module; str.strip additionally strips a few rarer code points
(vertical tab, form feed, unicode spaces), which the model omits. -/
def isWs (c : Char) : Bool := c == ' ' || c == '\t' || c == '\n' || c == '\r'

/-- Model of Python str.lstrip (restricted whitespace set, see isWs). -/
def lstrip (l : Str) : Str := l.dropWhile isWs

/-- Model of Python str.rstrip (restricted whitespace set, see isWs). -/
def rstrip (l : Str) : Str := (l.reverse.dropWhile isWs).reverse

/-- Model of Python str.strip (restricted whitespace set, see isWs). -/
def pyStrip (l : Str) : Str := lstrip (rstrip l)

/-- The markdown code fence: three backticks.  The source only ever splits
on this separator. -/
def fence : Str := [btick, btick, btick]

/-- Model of Python text.split on the three-backtick fence: scan left to
right, emit the accumulated piece at each non-overlapping occurrence of
the separator. -/
def splitTicksAux : List Char → List Char → List (List Char)
  | [], acc => [acc.reverse]
  | [c], acc => [(c :: acc).reverse]
  | [c, c2], acc => splitTicksAux [c2] (c :: acc)
  | c :: c2 :: c3 :: rest, acc =>
    if c = btick ∧ c2 = btick ∧ c3 = btick then
      acc.reverse :: splitTicksAux rest []
    else
      splitTicksAux (c2 :: c3 :: rest) (c :: acc)

/-- Model of Python text.split with separator the three-backtick fence. -/
def splitTicks (l : Str) : List Str := splitTicksAux l []

/-- No occurrence of the fence starts inside the first part of the
concatenation of the two given lists. -/
def noFenceBefore : List Char → List Char → Prop
  | [], _ => True
  | c :: a, m => ¬ fence <+: (c :: (a ++ m)) ∧ noFenceBefore a m

/-- A parsed JSON object in the modelled subset: an association list from
string keys to string values, in textual order (duplicate keys are
resolved last-wins at lookup time, as a Python dict built by json.loads
would). -/
abbrev Obj := List (Str × Str)

/-- Model of the Python json module whitespace skipping (space, tab, line
feed, carriage return — exactly the set accepted by json.loads). -/
def skipWs (l : List Char) : List Char := l.dropWhile isWs

/-- One-character JSON string escapes accepted by json.loads.  The
four-hex-digit unicode escape of the json module is outside the modelled
subset and maps to a parse failure. -/
def unescapeChar (c : Char) : Option Char :=
  if c = '"' then some '"'
  else if c = '\\' then some '\\'
  else if c = '/' then some '/'
  else if c = 'b' then some (Char.ofNat 8)
  else if c = 'f' then some (Char.ofNat 12)
  else if c = 'n' then some '\n'
  else if c = 'r' then some '\r'
  else if c = 't' then some '\t'
  else none

/-- Parse the body of a JSON string, the opening quote already consumed;
returns the decoded content and the remaining input.  Control characters
below code point 32 are rejected, as json.loads does in strict mode. -/
def parseJString : List Char → Option (Str × List Char)
  | [] => none
  | c :: rest =>
    if c = '"' then some ([], rest)
    else if c = '\\' then
      match rest with
      | [] => none
      | e :: rest2 =>
        match unescapeChar e with
        | none => none
        | some u =>
          match parseJString rest2 with
          | none => none
          | some (s, r) => some (u :: s, r)
    else if c.val < 32 then none
    else
      match parseJString rest with
      | none => none
      | some (s, r) => some (c :: s, r)

/-- Parse the members of a JSON object after the opening brace, in the
modelled subset where every value is a string.  Fuel bounds the recursion;
the callers supply input length plus one, which always suffices because
each member consumes several characters. -/
def parseMembers : Nat → List Char → Option (Obj × List Char)
  | 0, _ => none
  | fuel + 1, l =>
    match skipWs l with
    | '"' :: rest =>
      match parseJString rest with
      | none => none
      | some (k, r1) =>
        match skipWs r1 with
        | ':' :: r2 =>
          match skipWs r2 with
          | '"' :: r3 =>
            match parseJString r3 with
            | none => none
            | some (v, r4) =>
              match skipWs r4 with
              | ',' :: r5 =>
                match parseMembers fuel r5 with
                | none => none
                | some (ms, r6) => some ((k, v) :: ms, r6)
              | '}' :: r5 => some ([(k, v)], r5)
              | _ => none
          | _ => none
        | _ => none
    | _ => none

/-- Parse a complete JSON object spanning exactly the given text, which is
assumed already stripped of surrounding whitespace. -/
def jsonLoadsCore (t : List Char) : Option Obj :=
  match t with
  | '{' :: rest =>
    match skipWs rest with
    | '}' :: r2 => if r2.isEmpty then some [] else none
    | _ =>
      match parseMembers (rest.length + 1) rest with
      | none => none
      | some (ms, r) => if r.isEmpty then some ms else none
  | _ => none

/-- Model of json.loads restricted to the shape this application requests
and consumes: a JSON object with string keys and string values.  Any other
JSON document maps to the failure case, which the surrounding code treats
the same way as a parse error (every consumer wraps the call in a handler
that also catches the subsequent attribute and key errors).  json.loads
ignores surrounding whitespace, modelled by pre-stripping. -/
def jsonLoads (s : Str) : Option Obj := jsonLoadsCore (pyStrip s)

/-- Lookup in a parsed object with Python dict semantics: later duplicate
keys shadow earlier ones. -/
def pyDictFind (obj : Obj) (key : Str) : Option Str :=
  (obj.reverse.find? (fun kv => kv.1 == key)).map (fun kv => kv.2)

/-- Model of dict.get with a default value. -/
def pyDictGet (obj : Obj) (key : Str) (dflt : Str) : Str :=
  (pyDictFind obj key).getD dflt

/-- Outcome of a call into an external collaborator: either an exception
propagates out of the call, or a value is returned. -/
inductive CallOutcome (α : Type) where
  | raises (msg : Str)
  | returns (val : α)
deriving DecidableEq

/-- Outcome dictionary of GoogleTranslator.translate: a success flag with
the translated text, or a failure with an error message. -/
inductive TransResult where
  | ok (translated : Str)
  | err (msg : Str)
deriving DecidableEq

/-- One request to the deterministic translation provider, as passed to
GoogleTranslator.translate. -/
structure TransReq where
  text : Str
  source_lang : Str
  target_lang : Str
deriving DecidableEq

/-- The dataclass VocabularyData of home/ai_helper.py. -/
structure VocabularyData where
  chinese : Str
  pinyin : Str
  vietnamese : Str
  example_sentence : Str
deriving DecidableEq

/-- The dictionary produced by TranslationResult.to_dict: the data key is
present exactly when a data object was set, and the error key is present
exactly when a non-empty error string was set. -/
structure ResultDict where
  success : Bool
  method : Str
  data : Option VocabularyData
  error : Option Str
deriving DecidableEq

/-- Build the to_dict dictionary of a TranslationResult.  An empty error
string is dropped, mirroring the truthiness test in to_dict; a data
object is always truthy in Python, so it is kept whenever present. -/
def mkResultDict (success : Bool) (method : Str) (data : Option VocabularyData)
    (error : Option Str) : ResultDict :=
  ⟨success, method, data,
    match error with
    | none => none
    | some e => if e.isEmpty then none else some e⟩

/-- Value of TranslationMethod.OPENAI. -/
def methodOpenAI : Str := ("AI (OpenAI)" : String).data

/-- Value of TranslationMethod.GOOGLE. -/
def methodGoogle : Str := ("Google Translate" : String).data

/-- Value of TranslationMethod.FALLBACK.  The specification calls this the
deterministic-translation tag of a successful fallback resolution. -/
def methodFallback : Str := ("Google Translate (Dự phòng)" : String).data

/-- The fixed fallback-failure message of _use_google_fallback. -/
def errCannotTranslate : Str := ("Không thể dịch với Google Translate" : String).data

/-- The message prefixed to an exception text by the handler of
_use_google_fallback. -/
def errGoogleTranslate : Str := ("Lỗi Google Translate: " : String).data

/-- Source language code used by the fallback when the Chinese term is
given. -/
def zhCN : Str := ("zh-CN" : String).data

/-- Target language code used by the fallback when the Chinese term is
given. -/
def viLang : Str := ("vi" : String).data

/-- Separator placed between term and translation in the synthesized
example sentence. -/
def sepDash : Str := (" - " : String).data

/-- Key of the Chinese term in provider replies and callback arguments. -/
def chineseKey : Str := ("chinese" : String).data

/-- Key of the pinyin transcription. -/
def pinyinKey : Str := ("pinyin" : String).data

/-- Key of the Vietnamese gloss. -/
def vietnameseKey : Str := ("vietnamese" : String).data

/-- Key of the example sentence in provider replies. -/
def exampleKey : Str := ("example" : String).data

/-- The language tag stripped from the opening fence. -/
def jsonTag : Str := ("json" : String).data

/-- Python truthiness of an optional string argument: present and
non-empty. -/
def truthy (o : Option Str) : Bool :=
  match o with
  | none => false
  | some s => !s.isEmpty

/-- The expression x or the empty string, applied to an optional string:
an absent or empty value yields the empty string, which coincides with
getD on the empty default. -/
def orEmptyStr (o : Option Str) : Str := o.getD []

/-- Result of _use_google_fallback together with the trace of requests it
made to the deterministic translation provider. -/
structure FallbackTrace where
  result : ResultDict
  calls : List TransReq
deriving DecidableEq

/-- Model of VocabularyAIHelper._use_google_fallback.  The environment
parameter gtrans stands for GoogleTranslator.translate, whose outcome may
be a success dictionary, a failure dictionary, or a raised exception (the
deep-translator branch of the wrapper does not catch errors of the
translation call itself); the surrounding handler converts the exception
into a failure dictionary. -/
def use_google_fallback (gtrans : TransReq → CallOutcome TransResult)
    (chinese vietnamese : Option Str) : FallbackTrace :=
  if truthy chinese then
    let ch := orEmptyStr chinese
    let req : TransReq := ⟨ch, zhCN, viLang⟩
    match gtrans req with
    | .returns (.ok tr) =>
      ⟨mkResultDict true methodFallback (some ⟨ch, [], tr, ch ++ sepDash ++ tr⟩) none, [req]⟩
    | .returns (.err _) =>
      ⟨mkResultDict false methodGoogle none (some errCannotTranslate), [req]⟩
    | .raises e =>
      ⟨mkResultDict false methodGoogle none (some (errGoogleTranslate ++ e)), [req]⟩
  else if truthy vietnamese then
    let vi := orEmptyStr vietnamese
    let req : TransReq := ⟨vi, viLang, zhCN⟩
    match gtrans req with
    | .returns (.ok tr) =>
      ⟨mkResultDict true methodFallback (some ⟨tr, [], vi, tr ++ sepDash ++ vi⟩) none, [req]⟩
    | .returns (.err _) =>
      ⟨mkResultDict false methodGoogle none (some errCannotTranslate), [req]⟩
    | .raises e =>
      ⟨mkResultDict false methodGoogle none (some (errGoogleTranslate ++ e)), [req]⟩
  else
    ⟨mkResultDict false methodGoogle none (some errCannotTranslate), []⟩

/-- Model of VocabularyAIHelper._parse_ai_response: when the text opens
with the fence, take piece one of the fence split, drop a leading json
language tag, strip, and hand the result to json.loads.  When the text
opens with the fence the split always has at least two pieces, so the
index-one access of the source cannot fail; getD with an empty default
models it. -/
def parse_ai_response (text : Str) : Option Obj :=
  let text2 :=
    if fence.isPrefixOf text then
      let piece := (splitTicks text).getD 1 []
      let piece2 := if jsonTag.isPrefixOf piece then piece.drop 4 else piece
      pyStrip piece2
    else text
  jsonLoads text2

/-- Result of get_vocabulary_info together with the trace of requests made
to the deterministic translation provider. -/
structure ResolveTrace where
  result : ResultDict
  calls : List TransReq
deriving DecidableEq

/-- Model of VocabularyAIHelper.get_vocabulary_info.  clientOk models the
truthiness of the lazily constructed provider client; primary models the
chat-completion call, returning the optional content of the first choice
(a returned none models a null content, whose strip call raises and lands
in the generic handler).  Every failure of the primary path falls through
to the fallback; a successful parse builds the result with the field
backfills of the source. -/
def get_vocabulary_info (clientOk : Bool) (primary : CallOutcome (Option Str))
    (gtrans : TransReq → CallOutcome TransResult)
    (chinese vietnamese : Option Str) : ResolveTrace :=
  if !clientOk then
    let f := use_google_fallback gtrans chinese vietnamese
    ⟨f.result, f.calls⟩
  else
    match primary with
    | .raises _ =>
      let f := use_google_fallback gtrans chinese vietnamese
      ⟨f.result, f.calls⟩
    | .returns none =>
      let f := use_google_fallback gtrans chinese vietnamese
      ⟨f.result, f.calls⟩
    | .returns (some raw) =>
      match parse_ai_response (pyStrip raw) with
      | none =>
        let f := use_google_fallback gtrans chinese vietnamese
        ⟨f.result, f.calls⟩
      | some vocab =>
        ⟨mkResultDict true methodOpenAI
          (some ⟨pyDictGet vocab chineseKey (orEmptyStr chinese),
                 pyDictGet vocab pinyinKey [],
                 pyDictGet vocab vietnameseKey (orEmptyStr vietnamese),
                 pyDictGet vocab exampleKey []⟩) none, []⟩

/-- The apostrophe character, written via its code point. -/
def apos : Char := Char.ofNat 39

/-- Name of the declared callback in the tools schema of
translator/ai_engine.py. -/
def saveVocabName : Str := ("save_vocabulary" : String).data

/-- The system prompt of ChineseAIEngine, including the surrounding
whitespace of the triple-quoted source literal. -/
def systemPromptAI : Str :=
  ("\n        Bạn là Gia sư song ngữ Trung - Việt chuyên nghiệp.\n        1. Nếu nhập Tiếng Trung: Hiện Pinyin -> Dịch Việt -> Lưu từ mới.\n        2. Nếu nhập Tiếng Việt: Dịch Trung -> Hiện Pinyin -> Lưu từ Trung mới dịch được.\n        Luôn ưu tiên gọi hàm " : String).data
    ++ [apos] ++ ("luu_tu_vung" : String).data ++ [apos]
    ++ (" để lưu từ vựng.\n        " : String).data

/-- One tool call carried by an assistant reply: its identifier, the
called function name and the raw argument text. -/
structure ToolCallData where
  id : Str
  name : Str
  arguments : Str
deriving DecidableEq

/-- One assistant reply of the generative provider: optional text content
and the list of requested tool calls (an absent tool_calls attribute and
an empty list behave identically under the truthiness test of the source,
so both are the empty list here). -/
structure AIReply where
  content : Option Str
  tool_calls : List ToolCallData
deriving DecidableEq

/-- One conversation turn as appended to the messages list of
ChineseAIEngine.translate. -/
inductive Msg where
  | system (content : Str)
  | user (content : Str)
  | assistant (reply : AIReply)
  | tool (tool_call_id : Str) (content : Str)
deriving DecidableEq

/-- One request issued to the generative provider: the messages sent and
whether the tools schema was attached. -/
structure ProviderRequest where
  messages : List Msg
  toolsAttached : Bool
deriving DecidableEq

/-- Observable trace of one ChineseAIEngine.translate call: the Python
return value (none models the provider returning a null content on the
summarization round, which the source returns unchanged), the provider
requests issued in order, and the save_vocabulary executions with the
argument values each received. -/
structure TranslateTrace where
  result : Option Str
  requests : List ProviderRequest
  saves : List (Str × Str × Str)
deriving DecidableEq

/-- Model of ChineseAIEngine.save_vocabulary.  The environment parameter
fileW stands for the append to the vocabulary file: none on success, or
the exception text on failure; both outcomes are converted to a message
string, never an exception. -/
def save_vocabulary (fileW : Str → Option Str) (chinese pinyin vietnamese : Str) : Str :=
  let content := chinese ++ (" (" : String).data ++ pinyin ++ (") : " : String).data
    ++ vietnamese ++ ("\n" : String).data
  match fileW content with
  | none => ("✓ Đã lưu: " : String).data ++ chinese ++ (" (" : String).data
      ++ pinyin ++ (")" : String).data
  | some e => ("✗ Lỗi ghi file: " : String).data ++ e

/-- Content prefix of a result turn recording a tool execution error,
from the handler in the tool-call loop. -/
def toolErrorContent (detail : Str) : Str := ("Error: " : String).data ++ detail

/-- Stand-in for the str of a json.JSONDecodeError raised while parsing
tool-call arguments; the exact library message text is not modelled. -/
def jsonDecodeDetail : Str := ("invalid JSON arguments" : String).data

/-- Stand-in for the str of a KeyError raised by a missing required
argument; the exact library message text is not modelled. -/
def missingKeyDetail (k : Str) : Str := ("missing key " : String).data ++ k

/-- Result turn content for a tool call whose function name is not
declared. -/
def unknownFunctionMsg (name : Str) : Str := ("Unknown function: " : String).data ++ name

/-- Process one tool call of the loop body in ChineseAIEngine.translate:
parse the arguments as JSON, look up the three required arguments, run
save_vocabulary when everything is in place, and in every case produce a
result turn; the returned list records the save_vocabulary execution, if
any, with the argument values it received. -/
def processToolCall (fileW : Str → Option Str) (tc : ToolCallData) :
    Msg × List (Str × Str × Str) :=
  match jsonLoads tc.arguments with
  | none => (.tool tc.id (toolErrorContent jsonDecodeDetail), [])
  | some args =>
    if tc.name = saveVocabName then
      match pyDictFind args chineseKey with
      | none => (.tool tc.id (toolErrorContent (missingKeyDetail chineseKey)), [])
      | some c =>
        match pyDictFind args pinyinKey with
        | none => (.tool tc.id (toolErrorContent (missingKeyDetail pinyinKey)), [])
        | some p =>
          match pyDictFind args vietnameseKey with
          | none => (.tool tc.id (toolErrorContent (missingKeyDetail vietnameseKey)), [])
          | some v => (.tool tc.id (save_vocabulary fileW c p v), [(c, p, v)])
    else (.tool tc.id (unknownFunctionMsg tc.name), [])

/-- Process the tool calls of a reply in order, collecting the result
turns and the save_vocabulary executions. -/
def processToolCalls (fileW : Str → Option Str) :
    List ToolCallData → List Msg × List (Str × Str × Str)
  | [] => ([], [])
  | tc :: rest =>
    let r := processToolCall fileW tc
    let rs := processToolCalls fileW rest
    (r.1 :: rs.1, r.2 ++ rs.2)

/-- The literal placeholder returned when a direct reply has no content. -/
def noResultMsg : Str := ("Không có kết quả" : String).data

/-- The message built by the outer handler of translate around a raised
provider error. -/
def connErrMsg (e : Str) : Str := ("✗ Lỗi kết nối OpenAI: " : String).data ++ e

/-- Model of ChineseAIEngine.translate.  The environment parameter oracle
gives the outcome of the n-th chat-completion request of this call; fileW
is the vocabulary-file append effect.  The first request carries the tools
schema; when the reply holds tool calls, each is processed in order and a
second request without the schema is issued on the grown history; a raised
provider error is converted by the outer handler into an error string. -/
def translate (oracle : Nat → CallOutcome AIReply) (fileW : Str → Option Str)
    (text : Str) : TranslateTrace :=
  let messages0 : List Msg := [.system systemPromptAI, .user text]
  let req1 : ProviderRequest := ⟨messages0, true⟩
  match oracle 0 with
  | .raises e => ⟨some (connErrMsg e), [req1], []⟩
  | .returns reply =>
    if reply.tool_calls.isEmpty then
      ⟨some (match reply.content with
             | none => noResultMsg
             | some c => if c.isEmpty then noResultMsg else c),
       [req1], []⟩
    else
      let pr := processToolCalls fileW reply.tool_calls
      let messages2 := (messages0 ++ [.assistant reply]) ++ pr.1
      let req2 : ProviderRequest := ⟨messages2, false⟩
      match oracle 1 with
      | .raises e => ⟨some (connErrMsg e), [req1, req2], pr.2⟩
      | .returns fin => ⟨fin.content, [req1, req2], pr.2⟩

/-- The ways the primary generative step of get_vocabulary_info can fail
once a client exists: the chat-completion call raises, the reply content
is null (its strip call raises and lands in the generic handler), or the
stripped reply does not parse as a JSON object. -/
def primaryFails (primary : CallOutcome (Option Str)) : Prop :=
  (∃ e, primary = .raises e) ∨ primary = .returns none ∨
    ∃ raw, primary = .returns (some raw) ∧ parse_ai_response (pyStrip raw) = none

/-- A text wrapped in a fenced code block with the json language tag:
opening fence, tag, newline, content, newline, closing fence. -/
def wrapJson (t : Str) : Str := fence ++ jsonTag ++ ['\n'] ++ t ++ ['\n'] ++ fence

theorem dropWhile_dropWhile (p : Char → Bool) (l : List Char) :
    (l.dropWhile p).dropWhile p = l.dropWhile p := by
  induction l with
  | nil => rfl
  | cons c t ih =>
    by_cases hc : p c <;> simp [List.dropWhile_cons, hc, ih]

theorem dropWhile_head_false (p : Char → Bool) (l : List Char) (c : Char)
    (h : (l.dropWhile p).head? = some c) : p c = false := by
  induction l with
  | nil => simp at h
  | cons a t ih =>
    rw [List.dropWhile_cons] at h
    by_cases ha : p a
    · rw [if_pos ha] at h; exact ih h
    · rw [if_neg ha] at h
      simp only [List.head?_cons, Option.some.injEq] at h
      subst h
      exact Bool.eq_false_iff.mpr ha

theorem head?_of_prefix {x y : List Char} {c : Char} (hp : x <+: y)
    (h : x.head? = some c) : y.head? = some c := by
  obtain ⟨r, rfl⟩ := hp
  cases x with
  | nil => simp at h
  | cons a t => simpa using h

theorem dropWhile_eq_self_of_head (p : Char → Bool) (l : List Char)
    (h : ∀ c, l.head? = some c → p c = false) : l.dropWhile p = l := by
  cases l with
  | nil => rfl
  | cons a t =>
    have := h a (by simp)
    simp [List.dropWhile_cons, this]

theorem dropWhile_append_nil (p : Char → Bool) (u v : List Char)
    (h : u.dropWhile p = []) : (u ++ v).dropWhile p = v.dropWhile p := by
  induction u with
  | nil => rfl
  | cons a t ih =>
    rw [List.dropWhile_cons] at h
    by_cases ha : p a
    · simp only [ha, if_true] at h
      simpa [List.dropWhile_cons, ha] using ih h
    · simp [ha] at h

theorem dropWhile_append_cons (p : Char → Bool) (u v : List Char) (d : Char)
    (ds : List Char) (h : u.dropWhile p = d :: ds) :
    (u ++ v).dropWhile p = d :: (ds ++ v) := by
  induction u with
  | nil =>
    simp only [List.dropWhile_nil] at h
    exact absurd h.symm (List.cons_ne_nil d ds)
  | cons a t ih =>
    rw [List.dropWhile_cons] at h
    by_cases ha : p a
    · simp only [ha, if_true] at h
      simpa [List.dropWhile_cons, ha] using ih h
    · simp only [ha, if_false] at h
      injection h with h1 h2
      subst h1; subst h2
      simp [List.dropWhile_cons, ha]

theorem rstrip_rstrip (l : Str) : rstrip (rstrip l) = rstrip l := by
  simp [rstrip, dropWhile_dropWhile]

theorem rstrip_pyStrip (l : Str) : rstrip (pyStrip l) = pyStrip l := by
  have hsuf : pyStrip l <:+ rstrip l := List.dropWhile_suffix isWs
  have hpre : (pyStrip l).reverse <+: (rstrip l).reverse :=
    List.reverse_prefix.mpr hsuf
  have hrev : (rstrip l).reverse = l.reverse.dropWhile isWs := by
    simp [rstrip]
  unfold rstrip
  rw [dropWhile_eq_self_of_head isWs (pyStrip l).reverse, List.reverse_reverse]
  intro c hc
  have := head?_of_prefix hpre hc
  rw [hrev] at this
  exact dropWhile_head_false isWs l.reverse c this

theorem pyStrip_idem (l : Str) : pyStrip (pyStrip l) = pyStrip l := by
  show lstrip (rstrip (pyStrip l)) = pyStrip l
  rw [rstrip_pyStrip]
  show lstrip (lstrip (rstrip l)) = lstrip (rstrip l)
  simp [lstrip, dropWhile_dropWhile]

theorem lstrip_cons_ws (c : Char) (l : Str) (hc : isWs c = true) :
    lstrip (c :: l) = lstrip l := by
  simp [lstrip, List.dropWhile_cons, hc]

theorem rstrip_append_ws (u : Str) (c : Char) (hc : isWs c = true) :
    rstrip (u ++ [c]) = rstrip u := by
  unfold rstrip
  rw [List.reverse_append]
  simp [List.dropWhile_cons, hc]

theorem lstrip_rstrip_cons_ws (c : Char) (t : Str) (hc : isWs c = true) :
    lstrip (rstrip (c :: t)) = lstrip (rstrip t) := by
  have hrev : (c :: t).reverse = t.reverse ++ [c] := by simp
  cases h : t.reverse.dropWhile isWs with
  | nil =>
    have h1 : rstrip (c :: t) = [] := by
      unfold rstrip
      rw [hrev, dropWhile_append_nil isWs t.reverse [c] h]
      simp [List.dropWhile_cons, hc]
    have h2 : rstrip t = [] := by unfold rstrip; rw [h]; rfl
    rw [h1, h2]
  | cons d ds =>
    have h1 : rstrip (c :: t) = c :: (d :: ds).reverse := by
      unfold rstrip
      rw [hrev, dropWhile_append_cons isWs t.reverse [c] d ds h]
      simp
    have h2 : rstrip t = (d :: ds).reverse := by unfold rstrip; rw [h]
    rw [h1, h2, lstrip_cons_ws _ _ hc]

/-- Stripping is unaffected by one layer of surrounding newlines; this is
the wrapper shape produced by a fenced block once the fence and the tag
are removed. -/
theorem pyStrip_newline_wrap (t : Str) :
    pyStrip (('\n' :: t) ++ ['\n']) = pyStrip t := by
  show lstrip (rstrip (('\n' :: t) ++ ['\n'])) = pyStrip t
  rw [rstrip_append_ws ('\n' :: t) '\n' (by decide)]
  exact lstrip_rstrip_cons_ws '\n' t (by decide)

theorem fence_prefix_cons3 (c1 c2 c3 : Char) (l : List Char) :
    fence <+: (c1 :: c2 :: c3 :: l) ↔ c1 = btick ∧ c2 = btick ∧ c3 = btick := by
  constructor
  · rintro ⟨r, hr⟩
    simp only [fence, List.cons_append, List.nil_append, List.cons.injEq] at hr
    exact ⟨hr.1.symm, hr.2.1.symm, hr.2.2.1.symm⟩
  · rintro ⟨rfl, rfl, rfl⟩
    exact ⟨l, rfl⟩

theorem fence_prefix_head (c : Char) (l : List Char)
    (h : fence <+: (c :: l)) : c = btick := by
  obtain ⟨r, hr⟩ := h
  simp only [fence, List.cons_append, List.cons.injEq] at hr
  exact hr.1.symm

theorem splitTicksAux_step (c : Char) (l acc : List Char)
    (h : ¬ fence <+: (c :: l)) :
    splitTicksAux (c :: l) acc = splitTicksAux l (c :: acc) := by
  match l with
  | [] => rfl
  | [c2] => rfl
  | c2 :: c3 :: l3 =>
    have hcond : ¬ (c = btick ∧ c2 = btick ∧ c3 = btick) := by
      intro hc
      exact h ((fence_prefix_cons3 c c2 c3 l3).mpr hc)
    simp only [splitTicksAux, if_neg hcond]

theorem splitTicksAux_fence (rest acc : List Char) :
    splitTicksAux (fence ++ rest) acc = acc.reverse :: splitTicksAux rest [] := by
  show splitTicksAux (btick :: btick :: btick :: rest) acc = _
  simp [splitTicksAux]

theorem splitTicksAux_append (a : List Char) :
    ∀ m acc, noFenceBefore a m →
      splitTicksAux (a ++ m) acc = splitTicksAux m (a.reverse ++ acc) := by
  induction a with
  | nil => intro m acc _; rfl
  | cons c a ih =>
    intro m acc h
    obtain ⟨h1, h2⟩ := h
    rw [List.cons_append, splitTicksAux_step c (a ++ m) acc h1, ih m (c :: acc) h2]
    congr 1
    simp

theorem infix_of_infix_tail {x t : List Char} {c : Char} (h : x <:+: t) :
    x <:+: (c :: t) := by
  obtain ⟨s, u, hsu⟩ := h
  exact ⟨c :: s, u, by simp [hsu]⟩

/-- If the fence occurs nowhere in the body, then no fence occurrence
starts inside the body-plus-trailing-newline part of the wrapped text. -/
theorem noFenceBefore_body (t : Str) (h : ¬ fence <:+: t) :
    noFenceBefore (t ++ ['\n']) fence := by
  induction t with
  | nil =>
    refine ⟨?_, trivial⟩
    intro hp
    have := fence_prefix_head _ _ hp
    exact absurd this (by decide)
  | cons c t ih =>
    have ht : ¬ fence <:+: t := fun hx => h (infix_of_infix_tail hx)
    refine ⟨?_, ih ht⟩
    intro hp
    match t, hp with
    | [], hp =>
      have h2 := (fence_prefix_cons3 c '\n' btick _).mp (by simpa using hp)
      exact absurd h2.2.1 (by decide)
    | [d], hp =>
      have h2 := (fence_prefix_cons3 c d '\n' _).mp (by simpa using hp)
      exact absurd h2.2.2 (by decide)
    | d :: e :: t2, hp =>
      have h2 := (fence_prefix_cons3 c d e _).mp (by simpa using hp)
      obtain ⟨rfl, rfl, rfl⟩ := h2
      exact h ⟨[], t2, by simp [fence]⟩

theorem pyDictGet_of_absent (obj : Obj) (key dflt : Str)
    (h : ∀ kv ∈ obj, kv.1 ≠ key) : pyDictGet obj key dflt = dflt := by
  have hnone : obj.reverse.find? (fun kv => kv.1 == key) = none := by
    rw [List.find?_eq_none]
    intro kv hkv
    simp only [beq_iff_eq]
    exact h kv (List.mem_reverse.mp hkv)
  simp [pyDictGet, pyDictFind, hnone]

theorem isEmpty_false_of_ne_nil {l : Str} (h : l ≠ []) : l.isEmpty = false := by
  cases l with
  | nil => exact absurd rfl h
  | cons c t => rfl

theorem append_ne_nil_left {l e : Str} (h : l ≠ []) : l ++ e ≠ [] := by
  cases l with
  | nil => exact absurd rfl h
  | cons c t => simp

theorem mkResultDict_some_error (success : Bool) (method : Str)
    (d : Option VocabularyData) (e : Str) (he : e ≠ []) :
    mkResultDict success method d (some e) = ⟨success, method, d, some e⟩ := by
  simp [mkResultDict, isEmpty_false_of_ne_nil he]

theorem errGoogleTranslate_ne_nil : errGoogleTranslate ≠ [] := by decide

theorem errCannotTranslate_ne_nil : errCannotTranslate ≠ [] := by decide

/-- Every result of the fallback resolver has one of two shapes: a success
with the fallback method tag, a data object and no error, or a failure
with the plain Google method tag, no data and a non-empty error. -/
theorem use_google_fallback_result_shape (gtrans : TransReq → CallOutcome TransResult)
    (chinese vietnamese : Option Str) :
    (∃ d, (use_google_fallback gtrans chinese vietnamese).result =
        ⟨true, methodFallback, some d, none⟩) ∨
    (∃ e, e ≠ [] ∧ (use_google_fallback gtrans chinese vietnamese).result =
        ⟨false, methodGoogle, none, some e⟩) := by
  by_cases h1 : truthy chinese = true
  · cases hg : gtrans ⟨orEmptyStr chinese, zhCN, viLang⟩ with
    | raises e =>
      right
      refine ⟨errGoogleTranslate ++ e, append_ne_nil_left errGoogleTranslate_ne_nil, ?_⟩
      simp [use_google_fallback, h1, hg,
        mkResultDict_some_error _ _ _ _ (append_ne_nil_left errGoogleTranslate_ne_nil)]
    | returns tr =>
      cases tr with
      | ok s =>
        left
        refine ⟨⟨orEmptyStr chinese, [], s, orEmptyStr chinese ++ sepDash ++ s⟩, ?_⟩
        simp [use_google_fallback, h1, hg, mkResultDict]
      | err m =>
        right
        refine ⟨errCannotTranslate, errCannotTranslate_ne_nil, ?_⟩
        simp [use_google_fallback, h1, hg,
          mkResultDict_some_error _ _ _ _ errCannotTranslate_ne_nil]
  · by_cases h2 : truthy vietnamese = true
    · cases hg : gtrans ⟨orEmptyStr vietnamese, viLang, zhCN⟩ with
      | raises e =>
        right
        refine ⟨errGoogleTranslate ++ e, append_ne_nil_left errGoogleTranslate_ne_nil, ?_⟩
        simp [use_google_fallback, h1, h2, hg,
          mkResultDict_some_error _ _ _ _ (append_ne_nil_left errGoogleTranslate_ne_nil)]
      | returns tr =>
        cases tr with
        | ok s =>
          left
          refine ⟨⟨s, [], orEmptyStr vietnamese, s ++ sepDash ++ orEmptyStr vietnamese⟩, ?_⟩
          simp [use_google_fallback, h1, h2, hg, mkResultDict]
        | err m =>
          right
          refine ⟨errCannotTranslate, errCannotTranslate_ne_nil, ?_⟩
          simp [use_google_fallback, h1, h2, hg,
            mkResultDict_some_error _ _ _ _ errCannotTranslate_ne_nil]
    · right
      refine ⟨errCannotTranslate, errCannotTranslate_ne_nil, ?_⟩
      simp [use_google_fallback, h1, h2,
        mkResultDict_some_error _ _ _ _ errCannotTranslate_ne_nil]

/-- With a usable client, every primary failure makes get_vocabulary_info
return exactly what the fallback produced. -/
theorem get_vocabulary_info_of_primary_failure (primary : CallOutcome (Option Str))
    (gtrans : TransReq → CallOutcome TransResult) (chinese vietnamese : Option Str)
    (h : primaryFails primary) :
    get_vocabulary_info true primary gtrans chinese vietnamese =
      ⟨(use_google_fallback gtrans chinese vietnamese).result,
       (use_google_fallback gtrans chinese vietnamese).calls⟩ := by
  rcases h with ⟨e, rfl⟩ | rfl | ⟨raw, rfl, hp⟩
  · rfl
  · rfl
  · simp [get_vocabulary_info, hp]

/-- Without a usable client, get_vocabulary_info returns exactly what the
fallback produced. -/
theorem get_vocabulary_info_of_no_client (primary : CallOutcome (Option Str))
    (gtrans : TransReq → CallOutcome TransResult) (chinese vietnamese : Option Str) :
    get_vocabulary_info false primary gtrans chinese vietnamese =
      ⟨(use_google_fallback gtrans chinese vietnamese).result,
       (use_google_fallback gtrans chinese vietnamese).calls⟩ := rfl

/-- Claim C1: whenever the primary generative call raises or its reply is
not parseable JSON, get_vocabulary_info returns the fallback outcome
unchanged — so, provided the fallback succeeds, the caller sees a success
tagged with the deterministic-translation method and never sees the
primary failure. -/
theorem resolve_primary_failure_falls_back (primary : CallOutcome (Option Str))
    (gtrans : TransReq → CallOutcome TransResult) (chinese vietnamese : Option Str)
    (hfail : primaryFails primary)
    (hfb : (use_google_fallback gtrans chinese vietnamese).result.success = true) :
    (get_vocabulary_info true primary gtrans chinese vietnamese).result =
        (use_google_fallback gtrans chinese vietnamese).result ∧
      (get_vocabulary_info true primary gtrans chinese vietnamese).result.success = true ∧
      (get_vocabulary_info true primary gtrans chinese vietnamese).result.method =
        methodFallback := by
  have heq := get_vocabulary_info_of_primary_failure primary gtrans chinese vietnamese hfail
  have hmethod : (use_google_fallback gtrans chinese vietnamese).result.method =
      methodFallback := by
    rcases use_google_fallback_result_shape gtrans chinese vietnamese with ⟨d, hd⟩ | ⟨e, hne, he⟩
    · rw [hd]
    · rw [he] at hfb; exact absurd hfb (by simp)
  rw [heq]
  exact ⟨rfl, hfb, hmethod⟩

theorem resolve_primary_failure_falls_back_witness :
    (use_google_fallback (fun _ => .returns (.ok (("xin chào" : String).data)))
        (some (("你好" : String).data)) none).result.success = true ∧
      (get_vocabulary_info true (.raises (("boom" : String).data))
          (fun _ => .returns (.ok (("xin chào" : String).data)))
          (some (("你好" : String).data)) none).result.method = methodFallback :=
  ⟨by decide,
   (resolve_primary_failure_falls_back _ _ _ _ (Or.inl ⟨_, rfl⟩) (by decide)).2.2⟩

/-- Claim C2: when the primary path fails (no client, a raised call or an
unparseable reply) and the fallback also fails, get_vocabulary_info
returns a non-success outcome that carries a non-empty error string; the
embedding is a total function, mirroring the handlers that keep every
failure from escaping to the caller. -/
theorem resolve_both_fail_returns_error (clientOk : Bool)
    (primary : CallOutcome (Option Str)) (gtrans : TransReq → CallOutcome TransResult)
    (chinese vietnamese : Option Str)
    (hpf : clientOk = false ∨ primaryFails primary)
    (hfb : (use_google_fallback gtrans chinese vietnamese).result.success = false) :
    (get_vocabulary_info clientOk primary gtrans chinese vietnamese).result.success = false ∧
      ∃ e, e ≠ [] ∧
        (get_vocabulary_info clientOk primary gtrans chinese vietnamese).result.error =
          some e := by
  have heq : get_vocabulary_info clientOk primary gtrans chinese vietnamese =
      ⟨(use_google_fallback gtrans chinese vietnamese).result,
       (use_google_fallback gtrans chinese vietnamese).calls⟩ := by
    rcases hpf with rfl | hf
    · exact get_vocabulary_info_of_no_client primary gtrans chinese vietnamese
    · cases clientOk with
      | false => exact get_vocabulary_info_of_no_client primary gtrans chinese vietnamese
      | true => exact get_vocabulary_info_of_primary_failure primary gtrans chinese vietnamese hf
  rw [heq]
  rcases use_google_fallback_result_shape gtrans chinese vietnamese with ⟨d, hd⟩ | ⟨e, hne, he⟩
  · rw [hd] at hfb; exact absurd hfb (by simp)
  · rw [he]
    exact ⟨rfl, e, hne, rfl⟩

theorem resolve_both_fail_returns_error_witness :
    (use_google_fallback (fun _ => .returns (.err (("offline" : String).data)))
        (some (("你好" : String).data)) none).result.success = false ∧
      (get_vocabulary_info true (.raises (("boom" : String).data))
          (fun _ => .returns (.err (("offline" : String).data)))
          (some (("你好" : String).data)) none).result.success = false :=
  ⟨by decide,
   (resolve_both_fail_returns_error true _ _ _ _ (Or.inr (Or.inl ⟨_, rfl⟩)) (by decide)).1⟩

/-- Claim C3: a successful fallback resolution of a non-empty Chinese term
translates it with the zh-CN to vi language pair and returns exactly the
record keeping the term unchanged, an empty pinyin, the translated text as
the gloss, and the term, a dash separator and the translation as the
example sentence. -/
theorem fallback_success_record_shape (gtrans : TransReq → CallOutcome TransResult)
    (ch tr : Str) (vietnamese : Option Str) (hch : ch ≠ [])
    (hg : gtrans ⟨ch, zhCN, viLang⟩ = .returns (.ok tr)) :
    use_google_fallback gtrans (some ch) vietnamese =
      ⟨⟨true, methodFallback, some ⟨ch, [], tr, ch ++ sepDash ++ tr⟩, none⟩,
       [⟨ch, zhCN, viLang⟩]⟩ := by
  have ht : truthy (some ch) = true := by
    simp [truthy, isEmpty_false_of_ne_nil hch]
  simp [use_google_fallback, ht, orEmptyStr, hg, mkResultDict]

theorem fallback_success_record_shape_witness :
    use_google_fallback (fun _ => .returns (.ok (("xin chào" : String).data)))
        (some (("你好" : String).data)) none =
      ⟨⟨true, methodFallback,
        some ⟨("你好" : String).data, [], ("xin chào" : String).data,
          ("你好 - xin chào" : String).data⟩, none⟩,
       [⟨("你好" : String).data, zhCN, viLang⟩]⟩ := by
  have h := fallback_success_record_shape
    (fun _ => .returns (.ok (("xin chào" : String).data)))
    (("你好" : String).data) (("xin chào" : String).data) none (by decide) rfl
  rw [h]
  decide

/-- Claim C4 as stated is false: with a usable client and a primary reply
that parses to an empty JSON object, a gloss-less input yields a success
whose gloss is empty.  The inner statement is the claim quantified over
the embedded environment. -/
theorem success_nonempty_fields_counterexample :
    ¬ (∀ (clientOk : Bool) (primary : CallOutcome (Option Str))
        (gtrans : TransReq → CallOutcome TransResult) (chinese vietnamese : Option Str),
        (truthy chinese = true ∨ truthy vietnamese = true) →
        (get_vocabulary_info clientOk primary gtrans chinese vietnamese).result.success = true →
        ∀ d, (get_vocabulary_info clientOk primary gtrans chinese vietnamese).result.data =
            some d →
          d.chinese ≠ [] ∧ d.vietnamese ≠ []) := by
  intro h
  have := h true (.returns (some (("\x7b\x7d" : String).data))) (fun _ => .raises [])
    (some (("你" : String).data)) none (by decide) (by decide)
    ⟨("你" : String).data, [], [], []⟩ (by decide)
  exact absurd this.2 (by simp)

/-- Claim C4, amended: the fallback path does guarantee the invariant —
whenever the deterministic provider only ever returns non-empty translated
text, every successful fallback outcome has a non-empty sourceTerm and a
non-empty gloss (the primary path offers no such guarantee, since missing
reply fields are backfilled from possibly empty inputs). -/
theorem fallback_success_nonempty_fields (gtrans : TransReq → CallOutcome TransResult)
    (chinese vietnamese : Option Str)
    (hne : ∀ req tr, gtrans req = .returns (.ok tr) → tr ≠ [])
    (hok : (use_google_fallback gtrans chinese vietnamese).result.success = true) :
    ∃ d, (use_google_fallback gtrans chinese vietnamese).result.data = some d ∧
      d.chinese ≠ [] ∧ d.vietnamese ≠ [] := by
  by_cases h1 : truthy chinese = true
  · cases hg : gtrans ⟨orEmptyStr chinese, zhCN, viLang⟩ with
    | raises e =>
      rw [show (use_google_fallback gtrans chinese vietnamese).result =
          mkResultDict false methodGoogle none (some (errGoogleTranslate ++ e)) from by
        simp [use_google_fallback, h1, hg]] at hok
      rw [mkResultDict_some_error _ _ _ _ (append_ne_nil_left errGoogleTranslate_ne_nil)] at hok
      exact absurd hok (by simp)
    | returns tr =>
      cases tr with
      | ok s =>
        refine ⟨⟨orEmptyStr chinese, [], s, orEmptyStr chinese ++ sepDash ++ s⟩, ?_, ?_, ?_⟩
        · simp [use_google_fallback, h1, hg, mkResultDict]
        · cases chinese with
          | none => simp [truthy] at h1
          | some c =>
            cases c with
            | nil => simp [truthy, List.isEmpty] at h1
            | cons a t => simp [orEmptyStr]
        · exact hne _ _ hg
      | err m =>
        rw [show (use_google_fallback gtrans chinese vietnamese).result =
            mkResultDict false methodGoogle none (some errCannotTranslate) from by
          simp [use_google_fallback, h1, hg]] at hok
        rw [mkResultDict_some_error _ _ _ _ errCannotTranslate_ne_nil] at hok
        exact absurd hok (by simp)
  · by_cases h2 : truthy vietnamese = true
    · cases hg : gtrans ⟨orEmptyStr vietnamese, viLang, zhCN⟩ with
      | raises e =>
        rw [show (use_google_fallback gtrans chinese vietnamese).result =
            mkResultDict false methodGoogle none (some (errGoogleTranslate ++ e)) from by
          simp [use_google_fallback, h1, h2, hg]] at hok
        rw [mkResultDict_some_error _ _ _ _ (append_ne_nil_left errGoogleTranslate_ne_nil)] at hok
        exact absurd hok (by simp)
      | returns tr =>
        cases tr with
        | ok s =>
          refine ⟨⟨s, [], orEmptyStr vietnamese, s ++ sepDash ++ orEmptyStr vietnamese⟩,
            ?_, hne _ _ hg, ?_⟩
          · simp [use_google_fallback, h1, h2, hg, mkResultDict]
          · cases vietnamese with
            | none => simp [truthy] at h2
            | some c =>
              cases c with
              | nil => simp [truthy, List.isEmpty] at h2
              | cons a t => simp [orEmptyStr]
        | err m =>
          rw [show (use_google_fallback gtrans chinese vietnamese).result =
              mkResultDict false methodGoogle none (some errCannotTranslate) from by
            simp [use_google_fallback, h1, h2, hg]] at hok
          rw [mkResultDict_some_error _ _ _ _ errCannotTranslate_ne_nil] at hok
          exact absurd hok (by simp)
    · rw [show (use_google_fallback gtrans chinese vietnamese).result =
          mkResultDict false methodGoogle none (some errCannotTranslate) from by
        simp [use_google_fallback, h1, h2]] at hok
      rw [mkResultDict_some_error _ _ _ _ errCannotTranslate_ne_nil] at hok
      exact absurd hok (by simp)

theorem fallback_success_nonempty_fields_witness :
    (use_google_fallback (fun _ => .returns (.ok (("xin chào" : String).data)))
        (some (("你好" : String).data)) none).result.success = true ∧
      ∃ d, (use_google_fallback (fun _ => .returns (.ok (("xin chào" : String).data)))
          (some (("你好" : String).data)) none).result.data = some d ∧
        d.chinese ≠ [] ∧ d.vietnamese ≠ [] :=
  ⟨by decide,
   fallback_success_nonempty_fields _ _ _
     (fun req tr h => by
       injection h with h2
       injection h2 with h3
       rw [← h3]
       decide)
     (by decide)⟩

/-- Claim C6: once the reply parses to a JSON object, the primary path
always succeeds, and missing keys are backfilled: the Chinese term and the
Vietnamese gloss fall back to the corresponding caller inputs (empty when
absent), pinyin and example to the empty string. -/
theorem primary_incomplete_object_backfill (chinese vietnamese : Option Str)
    (gtrans : TransReq → CallOutcome TransResult) (raw : Str) (obj : Obj)
    (h : parse_ai_response (pyStrip raw) = some obj) :
    (get_vocabulary_info true (.returns (some raw)) gtrans chinese vietnamese).result.success
        = true ∧
      ∃ d, (get_vocabulary_info true (.returns (some raw)) gtrans chinese
          vietnamese).result.data = some d ∧
        ((∀ kv ∈ obj, kv.1 ≠ chineseKey) → d.chinese = orEmptyStr chinese) ∧
        ((∀ kv ∈ obj, kv.1 ≠ vietnameseKey) → d.vietnamese = orEmptyStr vietnamese) ∧
        ((∀ kv ∈ obj, kv.1 ≠ pinyinKey) → d.pinyin = []) ∧
        ((∀ kv ∈ obj, kv.1 ≠ exampleKey) → d.example_sentence = []) := by
  have hres : get_vocabulary_info true (.returns (some raw)) gtrans chinese vietnamese =
      ⟨⟨true, methodOpenAI,
        some ⟨pyDictGet obj chineseKey (orEmptyStr chinese),
              pyDictGet obj pinyinKey [],
              pyDictGet obj vietnameseKey (orEmptyStr vietnamese),
              pyDictGet obj exampleKey []⟩, none⟩, []⟩ := by
    simp [get_vocabulary_info, h, mkResultDict]
  rw [hres]
  exact ⟨rfl, _, rfl,
    fun ha => pyDictGet_of_absent obj chineseKey _ ha,
    fun ha => pyDictGet_of_absent obj vietnameseKey _ ha,
    fun ha => pyDictGet_of_absent obj pinyinKey _ ha,
    fun ha => pyDictGet_of_absent obj exampleKey _ ha⟩

theorem primary_incomplete_object_backfill_witness :
    parse_ai_response (pyStrip (("\x7b\x7d" : String).data)) = some [] ∧
      (get_vocabulary_info true (.returns (some (("\x7b\x7d" : String).data)))
          (fun _ => .raises []) (some (("好" : String).data))
          (some (("tốt" : String).data))).result.success = true :=
  ⟨by decide,
   (primary_incomplete_object_backfill (some (("好" : String).data))
     (some (("tốt" : String).data)) (fun _ => .raises [])
     (("\x7b\x7d" : String).data) [] (by decide)).1⟩

/-- Claim C10: with both inputs absent or empty, the fallback returns a
failure dictionary with the Google method tag (the deterministic provider
tag used on the failure side) and the fixed error message, without calling
the translation provider at all. -/
theorem fallback_empty_inputs_no_call (gtrans : TransReq → CallOutcome TransResult)
    (chinese vietnamese : Option Str)
    (hc : truthy chinese = false) (hv : truthy vietnamese = false) :
    use_google_fallback gtrans chinese vietnamese =
      ⟨⟨false, methodGoogle, none, some errCannotTranslate⟩, []⟩ := by
  simp [use_google_fallback, hc, hv,
    mkResultDict_some_error _ _ _ _ errCannotTranslate_ne_nil]

/-- The fence split of a fence-free body wrapped in a json fenced block
has three pieces: an empty one, the tag line with the body, and an empty
one.  This mirrors the index-one access of the source. -/
theorem splitTicks_wrapJson (t : Str) (hf : ¬ fence <:+: t) :
    splitTicks (wrapJson t) = [[], 'j' :: 's' :: 'o' :: 'n' :: '\n' :: (t ++ ['\n']), []] := by
  have hw : wrapJson t =
      fence ++ (('j' :: 's' :: 'o' :: 'n' :: '\n' :: (t ++ ['\n'])) ++ fence) := by
    simp [wrapJson, jsonTag]
  have hA : noFenceBefore ('j' :: 's' :: 'o' :: 'n' :: '\n' :: (t ++ ['\n'])) fence := by
    refine ⟨?_, ?_, ?_, ?_, ?_, noFenceBefore_body t hf⟩ <;>
      exact fun hp => absurd (fence_prefix_head _ _ hp) (by decide)
  rw [splitTicks, hw, splitTicksAux_fence,
    splitTicksAux_append _ _ _ hA]
  rw [show (fence : List Char) = fence ++ [] from by simp, splitTicksAux_fence]
  simp [splitTicks, splitTicksAux]

/-- Claim C5 as stated is false: a JSON object text that itself contains
the three-backtick fence parses on its own but not once wrapped in a
fenced block, because the split cuts at the inner fence. -/
theorem parse_fenced_unwrap_counterexample :
    jsonLoads (("\x7b\"a\": \"```\"\x7d" : String).data) =
        some [(("a" : String).data, ("```" : String).data)] ∧
      parse_ai_response (wrapJson (("\x7b\"a\": \"```\"\x7d" : String).data)) ≠
        parse_ai_response (("\x7b\"a\": \"```\"\x7d" : String).data) :=
  ⟨by decide, by decide⟩

/-- Claim C5, amended: for every JSON object text that does not itself
contain the three-backtick fence, the response parser yields on the
fenced-and-tagged wrapping exactly what it yields on the bare text. -/
theorem parse_fenced_unwrap_agrees (t : Str) (obj : Obj)
    (hf : ¬ fence <:+: t) (hj : jsonLoads t = some obj) :
    parse_ai_response (wrapJson t) = parse_ai_response t ∧
      parse_ai_response (wrapJson t) = some obj := by
  have hnotpre : fence.isPrefixOf t = false := by
    cases hb : fence.isPrefixOf t with
    | false => rfl
    | true =>
      exact absurd (List.isPrefixOf_iff_prefix.mp hb).isInfix hf
  have hpt : parse_ai_response t = jsonLoads t := by
    simp [parse_ai_response, hnotpre]
  have hpre : fence.isPrefixOf (wrapJson t) = true := by
    refine List.isPrefixOf_iff_prefix.mpr ?_
    refine ⟨jsonTag ++ ['\n'] ++ t ++ ['\n'] ++ fence, ?_⟩
    simp [wrapJson]
  have hsplit := splitTicks_wrapJson t hf
  have hpiece : (splitTicks (wrapJson t)).getD 1 [] =
      'j' :: 's' :: 'o' :: 'n' :: '\n' :: (t ++ ['\n']) := by
    rw [hsplit]; rfl
  have htag : jsonTag.isPrefixOf ('j' :: 's' :: 'o' :: 'n' :: '\n' :: (t ++ ['\n'])) = true :=
    List.isPrefixOf_iff_prefix.mpr ⟨'\n' :: (t ++ ['\n']), rfl⟩
  have hwrap : parse_ai_response (wrapJson t) = jsonLoads (pyStrip ('\n' :: (t ++ ['\n']))) := by
    simp only [parse_ai_response, hpre, if_true, hpiece, htag, List.drop_succ_cons,
      List.drop_zero]
  have hstrip : pyStrip ('\n' :: (t ++ ['\n'])) = pyStrip t := pyStrip_newline_wrap t
  have hidem : jsonLoads (pyStrip t) = jsonLoads t := by
    show jsonLoadsCore (pyStrip (pyStrip t)) = jsonLoadsCore (pyStrip t)
    rw [pyStrip_idem]
  rw [hwrap, hstrip, hidem, hpt]
  exact ⟨rfl, hj⟩

theorem parse_fenced_unwrap_agrees_witness :
    (¬ fence <:+: (("\x7b\"a\": \"b\"\x7d" : String).data)) ∧
      jsonLoads (("\x7b\"a\": \"b\"\x7d" : String).data) =
        some [(("a" : String).data, ("b" : String).data)] ∧
      parse_ai_response (wrapJson (("\x7b\"a\": \"b\"\x7d" : String).data)) =
        parse_ai_response (("\x7b\"a\": \"b\"\x7d" : String).data) :=
  ⟨by decide, by decide,
   (parse_fenced_unwrap_agrees (("\x7b\"a\": \"b\"\x7d" : String).data)
     [(("a" : String).data, ("b" : String).data)] (by decide) (by decide)).1⟩

theorem fallback_empty_inputs_no_call_witness :
    use_google_fallback (fun _ => .raises []) none (some []) =
      ⟨⟨false, methodGoogle, none, some errCannotTranslate⟩, []⟩ :=
  fallback_empty_inputs_no_call (fun _ => .raises []) none (some []) rfl (by decide)

theorem processToolCalls_fst_length (fileW : Str → Option Str) (l : List ToolCallData) :
    (processToolCalls fileW l).1.length = l.length := by
  induction l with
  | nil => rfl
  | cons tc rest ih => simp [processToolCalls, ih]

theorem processToolCalls_append (fileW : Str → Option Str) (xs ys : List ToolCallData) :
    (processToolCalls fileW (xs ++ ys)).1 =
      (processToolCalls fileW xs).1 ++ (processToolCalls fileW ys).1 := by
  induction xs with
  | nil => rfl
  | cons tc rest ih => simp [processToolCalls, ih]

/-- Claim C7: when the first reply carries exactly one tool call naming
save_vocabulary with parseable arguments holding all three keys, the loop
makes exactly the two recorded provider requests — the second carrying the
full turn history and no tools schema — and save_vocabulary executes
exactly once, receiving exactly the three argument values of the call. -/
theorem translate_single_tool_call_trace (oracle : Nat → CallOutcome AIReply)
    (fileW : Str → Option Str) (text : Str) (reply : AIReply) (tc : ToolCallData)
    (args : Obj) (c p v : Str)
    (h0 : oracle 0 = .returns reply)
    (h1 : reply.tool_calls = [tc])
    (h2 : tc.name = saveVocabName)
    (h3 : jsonLoads tc.arguments = some args)
    (hc : pyDictFind args chineseKey = some c)
    (hp : pyDictFind args pinyinKey = some p)
    (hv : pyDictFind args vietnameseKey = some v) :
    (translate oracle fileW text).saves = [(c, p, v)] ∧
      (translate oracle fileW text).requests =
        [⟨[.system systemPromptAI, .user text], true⟩,
         ⟨[.system systemPromptAI, .user text, .assistant reply,
           .tool tc.id (save_vocabulary fileW c p v)], false⟩] := by
  have hpc : processToolCall fileW tc =
      (.tool tc.id (save_vocabulary fileW c p v), [(c, p, v)]) := by
    simp [processToolCall, h3, h2, hc, hp, hv]
  have hall : processToolCalls fileW reply.tool_calls =
      ([.tool tc.id (save_vocabulary fileW c p v)], [(c, p, v)]) := by
    rw [h1]
    simp [processToolCalls, hpc]
  have hne : reply.tool_calls.isEmpty = false := by rw [h1]; rfl
  unfold translate
  rw [h0]
  cases ho : oracle 1 with
  | raises e => refine ⟨?_, ?_⟩ <;> simp [hne, hall, ho]
  | returns fin => refine ⟨?_, ?_⟩ <;> simp [hne, hall, ho]

theorem translate_single_tool_call_trace_witness :
    (translate
        (fun n => if n = 0 then
          .returns ⟨none, [⟨("id1" : String).data, saveVocabName,
            ("\x7b\"chinese\": \"好\", \"pinyin\": \"hao\", \"vietnamese\": \"tốt\"\x7d" : String).data⟩]⟩
         else .returns ⟨some (("done" : String).data), []⟩)
        (fun _ => none) (("从" : String).data)).saves =
      [(("好" : String).data, ("hao" : String).data, ("tốt" : String).data)] :=
  (translate_single_tool_call_trace _ _ _ _
    ⟨("id1" : String).data, saveVocabName,
      ("\x7b\"chinese\": \"好\", \"pinyin\": \"hao\", \"vietnamese\": \"tốt\"\x7d" : String).data⟩
    [(chineseKey, ("好" : String).data), (pinyinKey, ("hao" : String).data),
     (vietnameseKey, ("tốt" : String).data)]
    (("好" : String).data) (("hao" : String).data) (("tốt" : String).data)
    rfl rfl rfl (by decide) (by decide) (by decide) (by decide)).1

/-- Claim C8: a tool call whose arguments are not valid JSON does not
abort the loop — it contributes a result turn with an error description in
its position, every sibling call still contributes its own turn, and the
summarization request is still issued as the second recorded round-trip. -/
theorem translate_malformed_args_continue (oracle : Nat → CallOutcome AIReply)
    (fileW : Str → Option Str) (text : Str) (reply : AIReply)
    (pre post : List ToolCallData) (bad : ToolCallData)
    (h0 : oracle 0 = .returns reply)
    (h1 : reply.tool_calls = pre ++ bad :: post)
    (h2 : jsonLoads bad.arguments = none) :
    (processToolCalls fileW reply.tool_calls).1 =
        (processToolCalls fileW pre).1 ++
          Msg.tool bad.id (toolErrorContent jsonDecodeDetail) ::
            (processToolCalls fileW post).1 ∧
      (processToolCalls fileW reply.tool_calls).1.length = reply.tool_calls.length ∧
      (translate oracle fileW text).requests.length = 2 := by
  refine ⟨?_, processToolCalls_fst_length fileW _, ?_⟩
  · rw [h1, processToolCalls_append]
    congr 1
    simp [processToolCalls, processToolCall, h2]
  · have hne : reply.tool_calls.isEmpty = false := by
      rw [h1]; cases pre <;> rfl
    unfold translate
    rw [h0]
    cases ho : oracle 1 with
    | raises e => simp [hne, ho]
    | returns fin => simp [hne, ho]

theorem translate_malformed_args_continue_witness :
    (translate
        (fun n => if n = 0 then
          .returns ⟨none,
            [⟨("a1" : String).data, saveVocabName,
              ("\x7b\"chinese\": \"从\", \"pinyin\": \"cóng\", \"vietnamese\": \"từ\"\x7d" : String).data⟩,
             ⟨("a2" : String).data, saveVocabName,
              ("\x7bchinese: 从\x7d" : String).data⟩]⟩
         else .returns ⟨some (("ok" : String).data), []⟩)
        (fun _ => none) (("从" : String).data)).requests.length = 2 :=
  (translate_malformed_args_continue _ _ _ _
    [⟨("a1" : String).data, saveVocabName,
      ("\x7b\"chinese\": \"从\", \"pinyin\": \"cóng\", \"vietnamese\": \"từ\"\x7d" : String).data⟩]
    []
    ⟨("a2" : String).data, saveVocabName, ("\x7bchinese: 从\x7d" : String).data⟩
    rfl rfl (by decide)).2.2

/-- Claim C9: when the first reply carries no tool calls, exactly one
provider request is recorded and the call returns the reply content
directly, or the literal no-result placeholder when the content is null or
empty — never an exception. -/
theorem translate_no_tool_calls_direct (oracle : Nat → CallOutcome AIReply)
    (fileW : Str → Option Str) (text : Str) (reply : AIReply)
    (h0 : oracle 0 = .returns reply) (h1 : reply.tool_calls = []) :
    (translate oracle fileW text).requests =
        [⟨[.system systemPromptAI, .user text], true⟩] ∧
      (∀ c, reply.content = some c → c.isEmpty = false →
        (translate oracle fileW text).result = some c) ∧
      ((reply.content = none ∨ reply.content = some []) →
        (translate oracle fileW text).result = some noResultMsg) := by
  have hne : reply.tool_calls.isEmpty = true := by rw [h1]; rfl
  refine ⟨?_, ?_, ?_⟩
  · unfold translate
    rw [h0]
    simp [hne]
  · intro c hcnt hcne
    unfold translate
    rw [h0]
    simp [hne, hcnt, hcne]
  · intro hcase
    unfold translate
    rw [h0]
    rcases hcase with hcnt | hcnt <;> simp [hne, hcnt]

theorem translate_no_tool_calls_direct_witness :
    (translate (fun _ => .returns ⟨some (("你好 nghĩa là xin chào" : String).data), []⟩)
        (fun _ => none) (("你好" : String).data)).result =
      some (("你好 nghĩa là xin chào" : String).data) :=
  (translate_no_tool_calls_direct _ _ _
      ⟨some (("你好 nghĩa là xin chào" : String).data), []⟩ rfl rfl).2.1
    (("你好 nghĩa là xin chào" : String).data) rfl (by decide)

end HTT

